import Mathlib

/-!
Verification development for the two-way SMS conversation demo.

The TypeScript source keeps the session in module-level mutable globals and
drives it from DOM events; here the session is an explicit `Session` value and
each event handler is a pure function `Session → ... → Session`.  JavaScript
string operations (`toLowerCase`, `toUpperCase`, `trim`, `includes`) are
embedded as executable functions over `List Char`.  `setTimeout` callbacks are
modelled as a queue of `PendingAction`s on the session: scheduling appends to
the queue and a `fire` event pops an entry and applies its effect, mirroring
the fact that the source never calls `clearTimeout`.  The one true external
dependency, the OpenAI classification call, is passed in as an oracle
argument (`none` = thrown error or non-2xx response, `some content` = the
returned message content), and the locale-dependent `Date` formatting of the
appointment banner is carried as an opaque string field of the session.
-/

/-- Embedding of JavaScript `String.prototype.includes` over char lists. -/
def listContainsSub : List Char → List Char → Bool
  | [], needle => needle.isEmpty
  | c :: rest, needle => needle.isPrefixOf (c :: rest) || listContainsSub rest needle

/-- `hay.includes(needle)` on strings. -/
def strContains (hay needle : String) : Bool :=
  listContainsSub hay.data needle.data

/-- JavaScript `toLowerCase` (ASCII, as used by the source). -/
def strToLower (s : String) : String :=
  String.mk (s.data.map Char.toLower)

/-- JavaScript `toUpperCase` (ASCII, as used by the source). -/
def strToUpper (s : String) : String :=
  String.mk (s.data.map Char.toUpper)

/-- Drop whitespace from both ends of a char list. -/
def trimChars (l : List Char) : List Char :=
  ((l.dropWhile Char.isWhitespace).reverse.dropWhile Char.isWhitespace).reverse

/-- JavaScript `trim`. -/
def strTrim (s : String) : String :=
  String.mk (trimChars s.data)

/-- Character-count length of a string (JS `.length` for the ASCII texts involved). -/
def strLength (s : String) : Nat := s.data.length

/-- The six response categories (type `ResponseCategory` in the source). -/
inductive ResponseCategory
  | yes
  | callAtDifferentTime
  | no
  | noResponse24h
  | doNotContact
  | unknownMessage
deriving DecidableEq

/-- The literal string value of each category in the source's union type. -/
def ResponseCategory.label : ResponseCategory → String
  | .yes => "Yes"
  | .callAtDifferentTime => "Call at a different time"
  | .no => "No"
  | .noResponse24h => "24 hours later (No response)"
  | .doNotContact => "Do not contact"
  | .unknownMessage => "Unknown message"

/-- The `dncPatterns` array of `categorizeUserResponsePatternMatching`. -/
def dncPatterns : List String :=
  ["do not contact", "don\x27t contact", "stop calling", "stop texting", "remove me",
   "unsubscribe", "opt out", "do not call", "don\x27t call", "never call", "no more calls",
   "take me off", "remove from list", "dnc", "do not call list"]

/-- The plain-substring entries of the `timePatterns` array, in source order
(the two regex entries and the trailing three substrings are handled below). -/
def timeSubstringPatterns : List String :=
  ["call at", "call me at", "call back at", "different time", "another time",
   "later", "tomorrow", "next week", "schedule", "appointment", "when can",
   "what time", "what day", "monday", "tuesday", "wednesday", "thursday", "friday",
   "saturday", "sunday", "morning", "afternoon", "evening", "am", "pm"]

/-- Trailing substring entries of `timePatterns` listed after the regexes. -/
def timeTrailingPatterns : List String := ["between", "after", "before"]

/-- Existence of a match for the regex `\d{1,2}:\d{2}` (existence of a match of
`\d{1,2}:\d{2}` in a string is equivalent to existence of a digit, a colon and
two digits in a row). -/
def hasTimeColon : List Char → Bool
  | d :: c :: m1 :: m2 :: rest =>
      (d.isDigit && c == ':' && m1.isDigit && m2.isDigit)
        || hasTimeColon (c :: m1 :: m2 :: rest)
  | _ => false

/-- Helper for the `\d{1,2}\s*(am|pm)` regex: zero or more whitespace
characters followed by `am` or `pm` (the scanned text is already lowercased). -/
def spacesThenAmPm : List Char → Bool
  | a :: b :: rest =>
      ((a == 'a' || a == 'p') && b == 'm')
        || (a.isWhitespace && spacesThenAmPm (b :: rest))
  | _ => false

/-- Existence of a match for the regex `\d{1,2}\s*(am|pm)/i` on lowercased text. -/
def hasDigitAmPm : List Char → Bool
  | [] => false
  | d :: rest => (d.isDigit && spacesThenAmPm rest) || hasDigitAmPm rest

/-- The DNC test of the pattern matcher: `dncPatterns.some(p => text.includes(p))`. -/
def dncMatch (text : String) : Bool :=
  dncPatterns.any (fun p => strContains text p)

/-- The `timePatterns.some(...)` test: substring entries, the two regexes,
then the trailing substring entries. -/
def timeMatch (text : String) : Bool :=
  timeSubstringPatterns.any (fun p => strContains text p)
    || hasTimeColon text.data
    || hasDigitAmPm text.data
    || timeTrailingPatterns.any (fun p => strContains text p)

/-- The `yesPatterns` array. -/
def yesPatterns : List String :=
  ["yes", "yeah", "yep", "sure", "ok", "okay", "sounds good", "that works",
   "go ahead", "please do", "call me", "call back", "reach out", "contact me",
   "i\x27m interested", "interested", "definitely", "absolutely", "of course"]

/-- The `noPatterns` array. -/
def noPatterns : List String :=
  ["no", "nope", "not interested", "not now", "maybe later", "not right now",
   "can\x27t", "cannot", "busy", "not available", "not a good time", "decline",
   "pass", "not at this time"]

/-- The yes test of the pattern matcher. -/
def yesMatch (text : String) : Bool :=
  yesPatterns.any (fun p => strContains text p)

/-- The no test of the pattern matcher. -/
def noMatch (text : String) : Bool :=
  noPatterns.any (fun p => strContains text p)

/-- `categorizeUserResponsePatternMatching` from the source: lowercase and trim
the input, then test the pattern groups in order DNC, time, yes, no, with
`Unknown message` as the default. -/
def categorizeUserResponsePatternMatching (userText : String) : ResponseCategory :=
  let text := strTrim (strToLower userText)
  if dncMatch text then ResponseCategory.doNotContact
  else if timeMatch text then ResponseCategory.callAtDifferentTime
  else if yesMatch text then ResponseCategory.yes
  else if noMatch text then ResponseCategory.no
  else ResponseCategory.unknownMessage

/-- Exact match of a normalized AI answer against the six canonical labels
(the `validCategories.includes(normalizedCategory)` test). -/
def categoryOfLabel (l : String) : Option ResponseCategory :=
  if l = "Yes" then some ResponseCategory.yes
  else if l = "Call at a different time" then some ResponseCategory.callAtDifferentTime
  else if l = "No" then some ResponseCategory.no
  else if l = "24 hours later (No response)" then some ResponseCategory.noResponse24h
  else if l = "Do not contact" then some ResponseCategory.doNotContact
  else if l = "Unknown message" then some ResponseCategory.unknownMessage
  else none

/-- The `categoryMap` synonym table, in insertion order. -/
def categoryMap : List (String × ResponseCategory) :=
  [("yes", ResponseCategory.yes),
   ("call at a different time", ResponseCategory.callAtDifferentTime),
   ("no", ResponseCategory.no),
   ("24 hours later (no response)", ResponseCategory.noResponse24h),
   ("24 hours later", ResponseCategory.noResponse24h),
   ("no response", ResponseCategory.noResponse24h),
   ("do not contact", ResponseCategory.doNotContact),
   ("do not call", ResponseCategory.doNotContact),
   ("dnc", ResponseCategory.doNotContact),
   ("unknown message", ResponseCategory.unknownMessage),
   ("unknown", ResponseCategory.unknownMessage)]

/-- Exact lookup in the synonym table (`categoryMap[lowerCategory]`). -/
def lookupCat : List (String × ResponseCategory) → String → Option ResponseCategory
  | [], _ => none
  | (k, v) :: rest, key => if key = k then some v else lookupCat rest key

/-- First-entry partial-containment lookup
(`lowerCategory.includes(key) || key.includes(lowerCategory)`). -/
def partialLookupCat : List (String × ResponseCategory) → String → Option ResponseCategory
  | [], _ => none
  | (k, v) :: rest, key =>
      if strContains key k || strContains k key then some v
      else partialLookupCat rest key

/-- The `replace(/^["\x27]|["\x27]$/g,ml)` step: remove one surrounding quote
from each end, if present. -/
def stripOuterQuotes (s : String) : String :=
  let l := match s.data with
    | c :: rest => if c = '"' ∨ c = '\x27' then rest else c :: rest
    | [] => []
  let l := match l.reverse with
    | c :: rest => if c = '"' ∨ c = '\x27' then rest.reverse else (c :: rest).reverse
    | [] => []
  String.mk l

/-- Parsing of the raw OpenAI answer (lines 176-223 of the source): trim,
strip surrounding quotes, exact label match, case-insensitive synonym match,
then partial containment; `none` means an invalid category. -/
def parseAICategory (content : String) : Option ResponseCategory :=
  let rawCategory := strTrim content
  let normalized := strTrim (stripOuterQuotes rawCategory)
  match categoryOfLabel normalized with
  | some c => some c
  | none =>
      let lower := strToLower normalized
      match lookupCat categoryMap lower with
      | some c => some c
      | none => partialLookupCat categoryMap lower

/-- `categorizeUserResponse` from the source.  `aiEnabled` and `hasApiKey`
are the module globals it reads; `apiContent` is the oracle for the network
call: `none` stands for a thrown error or non-2xx response, `some content`
for a successful completion whose message content is `content`.  The second
component of the result records whether the external call was made at all. -/
def categorizeUserResponse (aiEnabled hasApiKey : Bool) (apiContent : Option String)
    (userText : String) : ResponseCategory × Bool :=
  let text := strTrim (strToLower userText)
  if text = "" ∨ strLength text < 2 then (ResponseCategory.noResponse24h, false)
  else if aiEnabled = false then (categorizeUserResponsePatternMatching userText, false)
  else if hasApiKey then
    match apiContent with
    | some content =>
        match parseAICategory content with
        | some c => (c, true)
        | none => (categorizeUserResponsePatternMatching userText, true)
    | none => (categorizeUserResponsePatternMatching userText, true)
  else (categorizeUserResponsePatternMatching userText, false)

/-- AM/PM selector of the date/time picker. -/
inductive AmPm
  | am
  | pm
deriving DecidableEq

/-- The 12-to-24-hour conversion in `handleDateTimeConfirm`. -/
def to24Hour (hour12 : Nat) (ampm : AmPm) : Nat :=
  if ampm = AmPm.pm ∧ hour12 ≠ 12 then hour12 + 12
  else if ampm = AmPm.am ∧ hour12 = 12 then 0
  else hour12

/-- The validation portion of `handleDateTimeConfirm`: reject when
`hours24 < 9 || hours24 >= 17`, then reject when `hours24 === 17` with a
non-zero minute (the minute picker is zero-padded, so `minutes !== '00'`
is `minute ≠ 0`); return the 24-hour hour on success. -/
def validateBusinessHours (hour12 minute : Nat) (ampm : AmPm) : Option Nat :=
  let hours24 := to24Hour hour12 ampm
  if hours24 < 9 ∨ hours24 ≥ 17 then none
  else if hours24 = 17 ∧ minute ≠ 0 then none
  else some hours24

/-- The validator as the spec words it: after 12-to-24-hour conversion the
input is rejected iff the hour is below 9, above 17, or equal to 17 with a
non-zero minute (5:00 PM exactly is the last valid instant). -/
def validateBusinessHoursSpec (hour12 minute : Nat) (ampm : AmPm) : Option Nat :=
  let hours24 := to24Hour hour12 ampm
  if hours24 < 9 ∨ hours24 > 17 then none
  else if hours24 = 17 ∧ minute ≠ 0 then none
  else some hours24

/-- Message sender tag (`'bot' | 'user'`). -/
inductive Sender
  | bot
  | user
deriving DecidableEq

/-- A chat message.  The `id` and `timestamp` fields of the source are
display-only (derived from `Date.now()`) and carry no control flow, so they
are not modelled. -/
structure Message where
  sender : Sender
  text : String
  options : Option (List String)
deriving DecidableEq

/-- Constructor helper for `Message`. -/
def mkMessage (sender : Sender) (text : String) (options : Option (List String)) : Message :=
  { sender := sender, text := text, options := options }

/-- The fixed disclosure message `ADT_INTRO_MESSAGE`. -/
def ADT_INTRO_MESSAGE : String :=
  "Hi, I\x27m ADT\x27s Digital Assistant powered by AI! This chat may be monitored or recorded. Msg&DataRatesApply. STOP2end"

/-- The `ConversationState` union of the source. -/
inductive ConversationState
  | initial
  | calling
  | call_accepted
  | call_declined
  | asking_if_wants_call
  | waiting_for_response
  | scheduling_time
  | time_scheduled
  | asking_better_time
  | asking_after_cancel
  | followup_next_day
  | unknown
  | ended
  | confirm_visit_initial
  | confirm_visit_waiting
  | confirm_visit_confirmed
  | confirm_visit_reschedule_question
  | confirm_visit_reschedule_waiting
  | confirm_visit_reschedule_selecting_time
  | confirm_visit_cancelled
  | confirm_visit_dnc
deriving DecidableEq

/-- Each `setTimeout`/interval-completion callback of the orchestration
paths, as a deferred action value.  Scheduling one appends it to the
session's `pending` queue; a `fire` event removes it and applies its body. -/
inductive PendingAction
  | showCalling
  | callDeclinedFollowup
  | confirmVisitIntro
  | timePassingComplete
  | followupOptions
  | betterTimeQuestion
  | showPicker
  | cvConfirmedMsg
  | cvRescheduleQuestion
  | cvDncMsg
  | cvUnknownMsg
  | cvCancelledMsg
  | cvShowReschedulePicker
  | afterCancelQuestion
  | cvRescheduleReask
deriving DecidableEq

/-- The session: the module-level mutable globals of the source gathered into
one value.  `apptDateTime` abstracts the locale-formatted appointment date
string built with `toLocaleString` (real-time dependent); `pending` is the
queue of not-yet-fired timer callbacks. -/
structure Session where
  currentState : ConversationState
  messages : List Message
  scheduledDateTime : Option (String × Nat × Nat)
  isAfter24HourFollowup : Bool
  userHasStopped : Bool
  selectedWorkflow : String
  selectedVersion : String
  aiEnabled : Bool
  apptDateTime : String
  pending : List PendingAction
deriving DecidableEq

/-- `addMessage` from the source: a bot message is dropped entirely once the
user has opted out; the first bot message of an empty log is preceded by the
ADT disclosure; otherwise the message is appended. -/
def addMessage (s : Session) (sender : Sender) (text : String)
    (options : Option (List String)) : Session :=
  if sender = Sender.bot ∧ s.userHasStopped = true then s
  else
    let withIntro :=
      if sender = Sender.bot ∧ s.messages = [] then
        s.messages ++ [mkMessage Sender.bot ADT_INTRO_MESSAGE none]
      else s.messages
    { s with messages := withIntro ++ [mkMessage sender text options] }

/-- Register a `setTimeout` callback: append it to the pending queue. -/
def schedule (s : Session) (a : PendingAction) : Session :=
  { s with pending := s.pending ++ [a] }

/-- The six-option follow-up question sent after a declined call. -/
def sixOptions : List String :=
  ["Yes", "Call at a different time", "No", "24 hours later (No response)",
   "Do not contact", "Unknown message"]

/-- The option set of the confirm-visit initial prompt. -/
def confirmVisitOptions : List String :=
  ["Yes", "No", "Cancel Appointment", "DNC", "Unknown message"]

/-- Text of the question sent after a declined call, by workflow. -/
def callDeclinedMessageText (workflow : String) : String :=
  if workflow = "product question" then
    "Hello, we received your product question. Would you like us to call you back to help?"
  else
    "Hello, we just called to reach out about our product! Would you like us to call you back?"

/-- Text of the day-after follow-up question, by workflow. -/
def followupMessageText (workflow : String) : String :=
  if workflow = "product question" then
    "Hello, we called yesterday about your product question. Would you like to schedule a time for us to call you?"
  else
    "Hello, we called yesterday to reach out about our product! Would you like to schedule a time for us to call you?"

/-- The confirm-visit initial prompt, parameterized by the formatted
appointment date-time string. -/
def confirmVisitInitialMessage (dateTime : String) : String :=
  "Hey John, you have a consultation scheduled for " ++ dateTime ++
    " at 123 Main Street, Anytown, ST 12345. A certified technician will be arriving. Will you be available for this appointment?"

/-- The reschedule question used throughout the confirm-visit workflow. -/
def rescheduleQuestionText : String :=
  "Is there a better time we could reschedule the appointment for?"

/-- Body of each deferred timer callback, exactly as the corresponding
`setTimeout`/interval-completion closure in the source. -/
def runPendingAction (s : Session) (a : PendingAction) : Session :=
  match a with
  | PendingAction.showCalling => { s with currentState := ConversationState.calling }
  | PendingAction.callDeclinedFollowup =>
      let s := addMessage s Sender.bot (callDeclinedMessageText s.selectedWorkflow) (some sixOptions)
      { s with currentState := ConversationState.waiting_for_response }
  | PendingAction.confirmVisitIntro =>
      let s := addMessage s Sender.bot (confirmVisitInitialMessage s.apptDateTime) (some confirmVisitOptions)
      { s with currentState := ConversationState.confirm_visit_waiting }
  | PendingAction.timePassingComplete =>
      let s := addMessage s Sender.bot ADT_INTRO_MESSAGE none
      let s := addMessage s Sender.bot (followupMessageText s.selectedWorkflow) none
      let s := { s with currentState := ConversationState.followup_next_day,
                        isAfter24HourFollowup := true }
      schedule s PendingAction.followupOptions
  | PendingAction.followupOptions =>
      addMessage s Sender.bot "" (some ["Yes", "No"])
  | PendingAction.betterTimeQuestion =>
      addMessage s Sender.bot "Is there a better time that we can call you?" (some ["Yes", "No"])
  | PendingAction.showPicker => { s with currentState := ConversationState.scheduling_time }
  | PendingAction.cvConfirmedMsg =>
      addMessage s Sender.bot "Great! We will see you then." none
  | PendingAction.cvRescheduleQuestion =>
      let s := addMessage s Sender.bot rescheduleQuestionText (some ["Yes", "No"])
      { s with currentState := ConversationState.confirm_visit_reschedule_waiting }
  | PendingAction.cvDncMsg =>
      addMessage s Sender.bot "Your appointment has been canceled and you will no longer receive notifications from this number." none
  | PendingAction.cvUnknownMsg =>
      addMessage s Sender.bot "Unknown message received, transferring to messaging agent." none
  | PendingAction.cvCancelledMsg =>
      addMessage s Sender.bot "Your appointment has been canceled, please reach out if you would like to reschedule." none
  | PendingAction.cvShowReschedulePicker => s
  | PendingAction.afterCancelQuestion =>
      addMessage s Sender.bot "No date and time selected. Would you like to select a date and time for us to call you back?" (some ["Yes", "No"])
  | PendingAction.cvRescheduleReask =>
      addMessage s Sender.bot rescheduleQuestionText (some ["Yes", "No"])

/-- `handleResponseToCallQuestion`: the branch table for
`waiting_for_response` and `followup_next_day`. -/
def handleResponseToCallQuestion (s : Session) (option : String) : Session :=
  if option = "Yes" then
    if s.isAfter24HourFollowup = true then
      { s with isAfter24HourFollowup := false,
               currentState := ConversationState.scheduling_time }
    else schedule s PendingAction.showCalling
  else if option = "Call at a different time" then
    { s with currentState := ConversationState.scheduling_time }
  else if option = "No" then
    if s.isAfter24HourFollowup = true then schedule s PendingAction.timePassingComplete
    else
      schedule { s with currentState := ConversationState.asking_better_time }
        PendingAction.betterTimeQuestion
  else if option = "No/No response" then
    if s.isAfter24HourFollowup = true then schedule s PendingAction.timePassingComplete
    else s
  else if option = "No response" ∨ option = "24 hours later (No response)" then
    schedule s PendingAction.timePassingComplete
  else if option = "Do not contact" then
    let s := addMessage s Sender.bot "Have a nice day!" none
    { s with currentState := ConversationState.ended }
  else if option = "Unknown message" then
    let s := addMessage s Sender.bot "Unknown message received, transferring to messaging agent." none
    { s with currentState := ConversationState.unknown }
  else s

/-- `handleBetterTimeResponse`: Yes opens the picker, anything else loops
through the 24-hour-pass path. -/
def handleBetterTimeResponse (s : Session) (option : String) : Session :=
  if option = "Yes" then { s with currentState := ConversationState.scheduling_time }
  else schedule s PendingAction.timePassingComplete

/-- `handleAfterCancelResponse`: Yes re-opens the picker after a delay,
anything else loops through the 24-hour-pass path. -/
def handleAfterCancelResponse (s : Session) (option : String) : Session :=
  if option = "Yes" then schedule s PendingAction.showPicker
  else schedule s PendingAction.timePassingComplete

/-- `handleConfirmVisitResponse`: the confirm-visit branch table. -/
def handleConfirmVisitResponse (s : Session) (option : String) : Session :=
  match s.currentState with
  | ConversationState.confirm_visit_waiting =>
      if option = "Yes" then
        schedule { s with currentState := ConversationState.confirm_visit_confirmed }
          PendingAction.cvConfirmedMsg
      else if option = "No" then
        schedule { s with currentState := ConversationState.confirm_visit_reschedule_question }
          PendingAction.cvRescheduleQuestion
      else if option = "Cancel Appointment" then
        schedule { s with currentState := ConversationState.confirm_visit_reschedule_question }
          PendingAction.cvRescheduleQuestion
      else if option = "Do not contact" ∨ option = "DNC" then
        schedule { s with currentState := ConversationState.confirm_visit_dnc }
          PendingAction.cvDncMsg
      else if option = "Unknown message" then
        schedule { s with currentState := ConversationState.unknown }
          PendingAction.cvUnknownMsg
      else s
  | ConversationState.confirm_visit_reschedule_waiting =>
      if option = "Yes" then
        schedule { s with currentState := ConversationState.confirm_visit_reschedule_selecting_time }
          PendingAction.cvShowReschedulePicker
      else if option = "No" then
        schedule { s with currentState := ConversationState.confirm_visit_cancelled }
          PendingAction.cvCancelledMsg
      else if option = "Unknown message" then
        schedule { s with currentState := ConversationState.unknown }
          PendingAction.cvUnknownMsg
      else s
  | _ => s

/-- `handleOptionSelect`: append the chosen label as a user message, then
dispatch on workflow and state. -/
def handleOptionSelect (s : Session) (option : String) : Session :=
  let s := addMessage s Sender.user option none
  if s.selectedWorkflow = "confirm visit" then handleConfirmVisitResponse s option
  else
    match s.currentState with
    | ConversationState.waiting_for_response => handleResponseToCallQuestion s option
    | ConversationState.followup_next_day => handleResponseToCallQuestion s option
    | ConversationState.asking_better_time => handleBetterTimeResponse s option
    | ConversationState.asking_after_cancel => handleAfterCancelResponse s option
    | _ => s

/-- The intent phrase list of `isConfirmVisitIntent`. -/
def confirmVisitPatterns : List String :=
  ["confirm a visit", "confirm the visit", "confirm my visit", "confirm visit",
   "confirm a appointment", "confirm the appointment", "confirm my appointment",
   "confirm appointment", "confirm my consultation", "confirm the consultation",
   "confirm consultation", "want to confirm a visit", "want to confirm visit",
   "actually want to confirm", "actually want to confirm a visit",
   "actually want to confirm my visit", "i want to confirm",
   "id like to confirm", "i\x27d like to confirm", "appointment confirmation",
   "confirm my scheduled"]

/-- `isConfirmVisitIntent`: lowercase, trim, substring-match the phrase list. -/
def isConfirmVisitIntent (userText : String) : Bool :=
  let text := strTrim (strToLower userText)
  confirmVisitPatterns.any (fun p => strContains text p)

/-- `switchToConfirmVisitWorkflow`: swap to the confirm-visit workflow
without clearing the log, set `confirm_visit_initial`, and schedule the
delayed initial prompt. -/
def switchToConfirmVisitWorkflow (s : Session) : Session :=
  let s := { s with selectedWorkflow := "confirm visit",
                    selectedVersion := "A",
                    currentState := ConversationState.confirm_visit_initial }
  schedule s PendingAction.confirmVisitIntro

/-- `handleTextInput`: trim; silently drop empty input; treat STOP as opt-out;
switch workflows on a confirm-visit intent while in the webform flow;
otherwise categorize (via the oracle-fed classifier) and dispatch the
category's label as an option. -/
def handleTextInput (s : Session) (rawText : String) (hasApiKey : Bool)
    (apiContent : Option String) : Session :=
  let userText := strTrim rawText
  if userText = "" then s
  else if strToUpper userText = "STOP" then
    let s := { s with userHasStopped := true }
    addMessage s Sender.user userText none
  else if s.selectedWorkflow = "webform" ∧ isConfirmVisitIntent userText = true then
    let s := addMessage s Sender.user userText none
    switchToConfirmVisitWorkflow s
  else
    let s := addMessage s Sender.user userText none
    let category := (categorizeUserResponse s.aiEnabled hasApiKey apiContent userText).1
    handleOptionSelect s category.label

/-- `startConversation`: clear the log and flags, then start the selected
workflow (version B of the webform omits the interest-form message). -/
def startConversation (s : Session) : Session :=
  let s := { s with messages := [],
                    currentState := ConversationState.initial,
                    userHasStopped := false,
                    scheduledDateTime := none,
                    isAfter24HourFollowup := false }
  if s.selectedWorkflow = "product question" then
    let s := addMessage s Sender.bot "We received your product question! We are calling now to help." none
    schedule s PendingAction.showCalling
  else if s.selectedWorkflow = "confirm visit" then
    schedule { s with currentState := ConversationState.confirm_visit_initial }
      PendingAction.confirmVisitIntro
  else
    let s :=
      if s.selectedVersion = "A" then
        addMessage s Sender.bot "We received your interest form! We are calling now." none
      else s
    schedule s PendingAction.showCalling

/-- `resetConversation`: clear the log and flags and restart.  Note that the
source never calls `clearTimeout`, so the pending queue is left untouched. -/
def resetConversation (s : Session) : Session :=
  let s := { s with messages := [],
                    currentState := ConversationState.initial,
                    userHasStopped := false,
                    scheduledDateTime := none,
                    isAfter24HourFollowup := false }
  startConversation s

/-- `handleCallAccept`. -/
def handleCallAccept (s : Session) : Session :=
  { s with currentState := ConversationState.call_accepted }

/-- `handleCallDecline`: enter `call_declined` and schedule the delayed
six-option question. -/
def handleCallDecline (s : Session) : Session :=
  schedule { s with currentState := ConversationState.call_declined }
    PendingAction.callDeclinedFollowup

/-- 12-hour display formatting of `toLocaleTimeString('en-US', ...)`. -/
def formatTime12 (hours24 minute : Nat) : String :=
  let h12 := if hours24 = 0 then 12 else if hours24 > 12 then hours24 - 12 else hours24
  let suffix := if hours24 < 12 then "AM" else "PM"
  toString h12 ++ ":" ++ (if minute < 10 then "0" ++ toString minute else toString minute)
    ++ " " ++ suffix

/-- `handleDateTimeConfirm`: validate, then on success store the scheduled
time and emit the confirmation message; on failure only an alert is shown and
the session is unchanged.  `dateStr` stands for the picker's date value and
its `toLocaleDateString` rendering. -/
def handleDateTimeConfirm (s : Session) (dateStr : String) (hour12 minute : Nat)
    (ampm : AmPm) : Session :=
  match validateBusinessHours hour12 minute ampm with
  | none => s
  | some hours24 =>
      let s := { s with scheduledDateTime := some (dateStr, hours24, minute) }
      if s.currentState = ConversationState.confirm_visit_reschedule_selecting_time then
        let s := addMessage s Sender.bot
          ("Your appointment has been rescheduled for " ++ dateStr ++ " at "
            ++ formatTime12 hours24 minute ++ ". We\x27ll see you then!") none
        { s with currentState := ConversationState.confirm_visit_confirmed }
      else
        let s := addMessage s Sender.bot
          ("We will call you again on " ++ dateStr ++ " at "
            ++ formatTime12 hours24 minute ++ ".") none
        { s with currentState := ConversationState.time_scheduled }

/-- `handleDateTimeCancel`. -/
def handleDateTimeCancel (s : Session) : Session :=
  if s.currentState = ConversationState.confirm_visit_reschedule_selecting_time then
    schedule { s with currentState := ConversationState.confirm_visit_reschedule_waiting }
      PendingAction.cvRescheduleReask
  else
    schedule { s with currentState := ConversationState.asking_after_cancel }
      PendingAction.afterCancelQuestion

/-- Remove and run the pending timer callback at index `i` (a no-op when the
index is out of range). -/
def firePending (s : Session) (i : Nat) : Session :=
  match s.pending[i]? with
  | none => s
  | some a => runPendingAction { s with pending := s.pending.eraseIdx i } a

/-- The external events the core consumes, with the classifier oracle
attached to free-text submissions and `fire i` delivering the pending timer
callback at index `i`. -/
inductive Event
  | selectOption (label : String)
  | submitText (text : String) (hasApiKey : Bool) (apiContent : Option String)
  | callAccept
  | callDecline
  | confirmDateTime (dateStr : String) (hour12 minute : Nat) (ampm : AmPm)
  | cancelDateTime
  | reset
  | fire (i : Nat)
deriving DecidableEq

/-- One step of the event-driven session machine. -/
def step (s : Session) : Event → Session
  | Event.selectOption label => handleOptionSelect s label
  | Event.submitText text k api => handleTextInput s text k api
  | Event.callAccept => handleCallAccept s
  | Event.callDecline => handleCallDecline s
  | Event.reset => resetConversation s
  | Event.confirmDateTime d h m ap => handleDateTimeConfirm s d h m ap
  | Event.cancelDateTime => handleDateTimeCancel s
  | Event.fire i => firePending s i

/-- Run a list of events in order. -/
def stepTrace (s : Session) (es : List Event) : Session :=
  es.foldl step s

/-- The bot-authored messages of a log. -/
def botFilter (l : List Message) : List Message :=
  l.filter (fun m => m.sender == Sender.bot)

/-- The case labels of `handleResponseToCallQuestion`'s switch. -/
def handledCallQuestionOption (option : String) : Bool :=
  option == "Yes" || option == "Call at a different time" || option == "No"
    || option == "No/No response" || option == "No response"
    || option == "24 hours later (No response)" || option == "Do not contact"
    || option == "Unknown message"

/-- Whether the dispatch tables act on `(workflow, state, option)` at all:
the case labels of the source's switch statements.  In `asking_better_time`
and `asking_after_cancel` every option is acted on (any non-Yes label is
treated as the No branch). -/
def hasTransition (workflow : String) (st : ConversationState) (option : String) : Bool :=
  if workflow = "confirm visit" then
    match st with
    | ConversationState.confirm_visit_waiting =>
        option == "Yes" || option == "No" || option == "Cancel Appointment"
          || option == "Do not contact" || option == "DNC" || option == "Unknown message"
    | ConversationState.confirm_visit_reschedule_waiting =>
        option == "Yes" || option == "No" || option == "Unknown message"
    | _ => false
  else
    match st with
    | ConversationState.waiting_for_response => handledCallQuestionOption option
    | ConversationState.followup_next_day => handledCallQuestionOption option
    | ConversationState.asking_better_time => true
    | ConversationState.asking_after_cancel => true
    | _ => false

/-- A fresh webform-A session, as created on page load. -/
def demoSession : Session :=
  { currentState := ConversationState.initial, messages := [], scheduledDateTime := none,
    isAfter24HourFollowup := false, userHasStopped := false, selectedWorkflow := "webform",
    selectedVersion := "A", aiEnabled := false,
    apptDateTime := "Tuesday, October 13, 2026, 10:00 AM", pending := [] }

/-- A session whose user has opted out. -/
def stoppedSession : Session :=
  { demoSession with userHasStopped := true,
                     messages := [mkMessage Sender.user "STOP" none] }

/-- A webform session sitting in the day-after follow-up. -/
def followupSession : Session :=
  { demoSession with currentState := ConversationState.followup_next_day,
                     isAfter24HourFollowup := true }

/-- `addMessage` touches only the message log. -/
@[simp] theorem addMessage_userHasStopped (s : Session) (snd : Sender) (t : String)
    (o : Option (List String)) : (addMessage s snd t o).userHasStopped = s.userHasStopped := by
  unfold addMessage; split <;> rfl

/-- `addMessage` leaves the state unchanged. -/
@[simp] theorem addMessage_currentState (s : Session) (snd : Sender) (t : String)
    (o : Option (List String)) : (addMessage s snd t o).currentState = s.currentState := by
  unfold addMessage; split <;> rfl

/-- `addMessage` leaves the pending queue unchanged. -/
@[simp] theorem addMessage_pending (s : Session) (snd : Sender) (t : String)
    (o : Option (List String)) : (addMessage s snd t o).pending = s.pending := by
  unfold addMessage; split <;> rfl

/-- `addMessage` leaves the workflow unchanged. -/
@[simp] theorem addMessage_selectedWorkflow (s : Session) (snd : Sender) (t : String)
    (o : Option (List String)) : (addMessage s snd t o).selectedWorkflow = s.selectedWorkflow := by
  unfold addMessage; split <;> rfl

/-- `addMessage` leaves the follow-up flag unchanged. -/
@[simp] theorem addMessage_isAfter24HourFollowup (s : Session) (snd : Sender) (t : String)
    (o : Option (List String)) :
    (addMessage s snd t o).isAfter24HourFollowup = s.isAfter24HourFollowup := by
  unfold addMessage; split <;> rfl

/-- `addMessage` leaves the appointment banner unchanged. -/
@[simp] theorem addMessage_apptDateTime (s : Session) (snd : Sender) (t : String)
    (o : Option (List String)) : (addMessage s snd t o).apptDateTime = s.apptDateTime := by
  unfold addMessage; split <;> rfl

/-- A user message is always appended, with no disclosure insertion. -/
theorem addMessage_user_eq (s : Session) (t : String) (o : Option (List String)) :
    addMessage s Sender.user t o =
      { s with messages := s.messages ++ [mkMessage Sender.user t o] } := by
  unfold addMessage; simp

/-- A bot message is dropped once the user has opted out. -/
theorem addMessage_bot_stopped (s : Session) (t : String) (o : Option (List String))
    (h : s.userHasStopped = true) : addMessage s Sender.bot t o = s := by
  unfold addMessage; simp [h]

/-- `schedule` only appends to the pending queue. -/
@[simp] theorem schedule_messages (s : Session) (a : PendingAction) :
    (schedule s a).messages = s.messages := rfl

/-- `schedule` appends the action. -/
@[simp] theorem schedule_pending (s : Session) (a : PendingAction) :
    (schedule s a).pending = s.pending ++ [a] := rfl

/-- `schedule` leaves the opt-out flag unchanged. -/
@[simp] theorem schedule_userHasStopped (s : Session) (a : PendingAction) :
    (schedule s a).userHasStopped = s.userHasStopped := rfl

/-- `schedule` leaves the state unchanged. -/
@[simp] theorem schedule_currentState (s : Session) (a : PendingAction) :
    (schedule s a).currentState = s.currentState := rfl

/-- `schedule` leaves the follow-up flag unchanged. -/
@[simp] theorem schedule_isAfter24HourFollowup (s : Session) (a : PendingAction) :
    (schedule s a).isAfter24HourFollowup = s.isAfter24HourFollowup := rfl

/-- `botFilter` distributes over append. -/
@[simp] theorem botFilter_append (l1 l2 : List Message) :
    botFilter (l1 ++ l2) = botFilter l1 ++ botFilter l2 :=
  List.filter_append l1 l2

/-- A user message contributes nothing to `botFilter`. -/
@[simp] theorem botFilter_user_singleton (t : String) (o : Option (List String)) :
    botFilter [mkMessage Sender.user t o] = [] := rfl

/-- A substring can be no longer than the string containing it. -/
theorem listContainsSub_length {hay needle : List Char}
    (h : listContainsSub hay needle = true) : needle.length ≤ hay.length := by
  induction hay with
  | nil =>
      unfold listContainsSub at h
      simp [List.isEmpty_iff] at h
      simp [h]
  | cons c rest ih =>
      unfold listContainsSub at h
      rcases Bool.or_eq_true_iff.mp h with h1 | h2
      · exact (List.isPrefixOf_iff_prefix.mp h1).length_le
      · exact Nat.le_trans (ih h2) (by simp)

/-- Trimming and lowercasing never lengthen a string. -/
theorem strTrim_strToLower_length_le (u : String) :
    (strTrim (strToLower u)).data.length ≤ u.data.length := by
  have h1 : (strTrim (strToLower u)).data = trimChars (u.data.map Char.toLower) := rfl
  rw [h1]
  have h2 : (trimChars (u.data.map Char.toLower)).length ≤ (u.data.map Char.toLower).length := by
    unfold trimChars
    calc (((u.data.map Char.toLower).dropWhile Char.isWhitespace).reverse.dropWhile
            Char.isWhitespace).reverse.length
        = (((u.data.map Char.toLower).dropWhile Char.isWhitespace).reverse.dropWhile
            Char.isWhitespace).length := by rw [List.length_reverse]
      _ ≤ ((u.data.map Char.toLower).dropWhile Char.isWhitespace).reverse.length :=
          (List.dropWhile_suffix _).length_le
      _ = ((u.data.map Char.toLower).dropWhile Char.isWhitespace).length := by
          rw [List.length_reverse]
      _ ≤ (u.data.map Char.toLower).length := (List.dropWhile_suffix _).length_le
  rw [List.length_map] at h2
  exact h2

/-- A confirm-visit intent text is at least 13 characters long once
lowercased and trimmed (the shortest pattern is 13 characters). -/
theorem isConfirmVisitIntent_length {u : String}
    (h : isConfirmVisitIntent u = true) :
    13 ≤ (strTrim (strToLower u)).data.length := by
  unfold isConfirmVisitIntent at h
  obtain ⟨p, hp, hc⟩ := List.any_eq_true.mp h
  have hlen : 13 ≤ p.data.length := by
    fin_cases hp <;> decide
  have := listContainsSub_length (hc : listContainsSub (strTrim (strToLower u)).data p.data = true)
  omega

/-- A confirm-visit intent text cannot be the opt-out keyword. -/
theorem isConfirmVisitIntent_ne_STOP {u : String}
    (h : isConfirmVisitIntent u = true) : strToUpper u ≠ "STOP" := by
  intro hup
  have hlen4 : u.data.length = 4 := by
    have : (strToUpper u).data = u.data.map Char.toUpper := rfl
    rw [hup] at this
    have := congrArg List.length this.symm
    simpa [List.length_map] using this
  have h13 := isConfirmVisitIntent_length h
  have hle := strTrim_strToLower_length_le u
  omega

/-- Removing the last element of `l ++ [a]`. -/
theorem eraseIdx_concat_self {α : Type} (l : List α) (a : α) :
    (l ++ [a]).eraseIdx l.length = l := by
  induction l with
  | nil => rfl
  | cons x xs ih => simp [List.eraseIdx_cons_succ, ih]

/-- After opt-out, the call-question handler adds no bot message and keeps
the flag. -/
theorem stop_handleResponseToCallQuestion (s : Session) (o : String)
    (h : s.userHasStopped = true) :
    botFilter (handleResponseToCallQuestion s o).messages = botFilter s.messages ∧
    (handleResponseToCallQuestion s o).userHasStopped = true := by
  unfold handleResponseToCallQuestion
  split_ifs <;> simp_all [addMessage_bot_stopped]

/-- After opt-out, the better-time handler adds no bot message and keeps the
flag. -/
theorem stop_handleBetterTimeResponse (s : Session) (o : String)
    (h : s.userHasStopped = true) :
    botFilter (handleBetterTimeResponse s o).messages = botFilter s.messages ∧
    (handleBetterTimeResponse s o).userHasStopped = true := by
  unfold handleBetterTimeResponse
  split_ifs <;> simp_all

/-- After opt-out, the after-cancel handler adds no bot message and keeps the
flag. -/
theorem stop_handleAfterCancelResponse (s : Session) (o : String)
    (h : s.userHasStopped = true) :
    botFilter (handleAfterCancelResponse s o).messages = botFilter s.messages ∧
    (handleAfterCancelResponse s o).userHasStopped = true := by
  unfold handleAfterCancelResponse
  split_ifs <;> simp_all

/-- After opt-out, the confirm-visit handler adds no bot message and keeps
the flag. -/
theorem stop_handleConfirmVisitResponse (s : Session) (o : String)
    (h : s.userHasStopped = true) :
    botFilter (handleConfirmVisitResponse s o).messages = botFilter s.messages ∧
    (handleConfirmVisitResponse s o).userHasStopped = true := by
  unfold handleConfirmVisitResponse
  cases s.currentState <;> split_ifs <;> simp_all [addMessage_bot_stopped]

/-- After opt-out, option dispatch appends only the user's own label. -/
theorem stop_handleOptionSelect (s : Session) (o : String)
    (h : s.userHasStopped = true) :
    botFilter (handleOptionSelect s o).messages = botFilter s.messages ∧
    (handleOptionSelect s o).userHasStopped = true := by
  unfold handleOptionSelect
  rw [addMessage_user_eq]
  have h' : ({ s with messages := s.messages ++ [mkMessage Sender.user o none] } :
      Session).userHasStopped = true := h
  dsimp only
  split_ifs with hw
  · have := stop_handleConfirmVisitResponse
      { s with messages := s.messages ++ [mkMessage Sender.user o none] } o h'
    simpa using this
  · cases hst : s.currentState <;>
      simp_all [stop_handleResponseToCallQuestion, stop_handleBetterTimeResponse,
        stop_handleAfterCancelResponse]

/-- After opt-out, a fired timer callback adds no bot message and keeps the
flag. -/
theorem stop_runPendingAction (s : Session) (a : PendingAction)
    (h : s.userHasStopped = true) :
    botFilter (runPendingAction s a).messages = botFilter s.messages ∧
    (runPendingAction s a).userHasStopped = true := by
  cases a <;> simp_all [runPendingAction, addMessage_bot_stopped]

/-- After opt-out, firing any pending timer adds no bot message and keeps
the flag. -/
theorem stop_firePending (s : Session) (i : Nat)
    (h : s.userHasStopped = true) :
    botFilter (firePending s i).messages = botFilter s.messages ∧
    (firePending s i).userHasStopped = true := by
  unfold firePending
  cases hi : s.pending[i]? with
  | none => exact ⟨rfl, h⟩
  | some a =>
      have := stop_runPendingAction { s with pending := s.pending.eraseIdx i } a h
      simpa using this

/-- After opt-out, free-text submission appends at most the user's own text
and keeps the flag. -/
theorem stop_handleTextInput (s : Session) (raw : String) (k : Bool)
    (api : Option String) (h : s.userHasStopped = true) :
    botFilter (handleTextInput s raw k api).messages = botFilter s.messages ∧
    (handleTextInput s raw k api).userHasStopped = true := by
  unfold handleTextInput
  dsimp only
  split_ifs with h1 h2 h3
  · exact ⟨rfl, h⟩
  · rw [addMessage_user_eq]
    exact ⟨by simp, rfl⟩
  · rw [addMessage_user_eq]
    unfold switchToConfirmVisitWorkflow
    exact ⟨by simp [botFilter_append], h⟩
  · rw [addMessage_user_eq]
    have := stop_handleOptionSelect
      { s with messages := s.messages ++ [mkMessage Sender.user (strTrim raw) none] }
      (categorizeUserResponse s.aiEnabled k api (strTrim raw)).1.label h
    simpa using this

/-- After opt-out, confirming a date/time adds no bot message and keeps the
flag. -/
theorem stop_handleDateTimeConfirm (s : Session) (d : String) (h12 m : Nat)
    (ap : AmPm) (h : s.userHasStopped = true) :
    botFilter (handleDateTimeConfirm s d h12 m ap).messages = botFilter s.messages ∧
    (handleDateTimeConfirm s d h12 m ap).userHasStopped = true := by
  unfold handleDateTimeConfirm
  cases validateBusinessHours h12 m ap with
  | none => exact ⟨rfl, h⟩
  | some hours24 =>
      dsimp only
      split_ifs <;> simp_all [addMessage_bot_stopped]

/-- After opt-out, cancelling the picker adds no bot message and keeps the
flag. -/
theorem stop_handleDateTimeCancel (s : Session) (h : s.userHasStopped = true) :
    botFilter (handleDateTimeCancel s).messages = botFilter s.messages ∧
    (handleDateTimeCancel s).userHasStopped = true := by
  unfold handleDateTimeCancel
  split_ifs <;> simp_all

/-- `startConversation` clears the opt-out flag. -/
theorem startConversation_userHasStopped (s : Session) :
    (startConversation s).userHasStopped = false := by
  unfold startConversation
  dsimp only
  split_ifs <;> simp

/-- C1: evaluating the scheduling validator at the claim's sample points.
`validate(d, 9, 0, AM)`, `validate(d, 5, 5, PM)` and `validate(d, 8, 55, AM)`
behave as claimed, but `validate(d, 5, 0, PM)` — the instant the claim says
is the last valid one — is rejected by the code: the `hours24 >= 17` guard
fires before the dedicated `hours24 === 17 && minutes !== '00'` special
case, which is therefore unreachable.  The validator written from the
spec's words accepts 17:00 exactly. -/
theorem c1_validator_boundary :
    validateBusinessHours 9 0 AmPm.am = some 9 ∧
    validateBusinessHours 5 5 AmPm.pm = none ∧
    validateBusinessHours 8 55 AmPm.am = none ∧
    validateBusinessHours 5 0 AmPm.pm = none ∧
    validateBusinessHoursSpec 5 0 AmPm.pm = some 17 := by
  decide

/-- C7: the rule-based categorizer tests its pattern groups in first-match-wins
order DNC, time, yes, no, defaulting to UnknownMessage, over the lowercased
trimmed text; it never returns `NoResponse24h`, and any text containing a DNC
pattern is classified DNC. -/
theorem c7_pattern_priority (t : String) :
    categorizeUserResponsePatternMatching t ≠ ResponseCategory.noResponse24h ∧
    (dncMatch (strTrim (strToLower t)) = true →
      categorizeUserResponsePatternMatching t = ResponseCategory.doNotContact) ∧
    (dncMatch (strTrim (strToLower t)) = false →
      timeMatch (strTrim (strToLower t)) = true →
      categorizeUserResponsePatternMatching t = ResponseCategory.callAtDifferentTime) ∧
    (dncMatch (strTrim (strToLower t)) = false →
      timeMatch (strTrim (strToLower t)) = false →
      yesMatch (strTrim (strToLower t)) = true →
      categorizeUserResponsePatternMatching t = ResponseCategory.yes) ∧
    (dncMatch (strTrim (strToLower t)) = false →
      timeMatch (strTrim (strToLower t)) = false →
      yesMatch (strTrim (strToLower t)) = false →
      noMatch (strTrim (strToLower t)) = true →
      categorizeUserResponsePatternMatching t = ResponseCategory.no) ∧
    (dncMatch (strTrim (strToLower t)) = false →
      timeMatch (strTrim (strToLower t)) = false →
      yesMatch (strTrim (strToLower t)) = false →
      noMatch (strTrim (strToLower t)) = false →
      categorizeUserResponsePatternMatching t = ResponseCategory.unknownMessage) := by
  unfold categorizeUserResponsePatternMatching
  by_cases h1 : dncMatch (strTrim (strToLower t)) = true <;>
    by_cases h2 : timeMatch (strTrim (strToLower t)) = true <;>
    by_cases h3 : yesMatch (strTrim (strToLower t)) = true <;>
    by_cases h4 : noMatch (strTrim (strToLower t)) = true <;>
    simp_all

/-- Witness for C7 at a concrete DNC input. -/
theorem c7_witness :
    dncMatch (strTrim (strToLower "please stop calling")) = true ∧
    categorizeUserResponsePatternMatching "please stop calling" = ResponseCategory.doNotContact ∧
    categorizeUserResponsePatternMatching "please stop calling" ≠ ResponseCategory.noResponse24h :=
  ⟨by decide,
   (c7_pattern_priority "please stop calling").2.1 (by decide),
   (c7_pattern_priority "please stop calling").1⟩

/-- C8: any text whose trimmed form is shorter than 2 characters is classified
`NoResponse24h` immediately, for every value of `aiEnabled` and of the API-key
and network oracles, and no external call is made (second component `false`). -/
theorem c8_short_input_no_response (aiEnabled hasApiKey : Bool) (api : Option String)
    (t : String) (h : strLength (strTrim (strToLower t)) < 2) :
    categorizeUserResponse aiEnabled hasApiKey api t = (ResponseCategory.noResponse24h, false) := by
  unfold categorizeUserResponse
  simp [h]

/-- Witness for C8 at the one-character input `"x"` with AI enabled. -/
theorem c8_witness :
    strLength (strTrim (strToLower "x")) < 2 ∧
    categorizeUserResponse true true (some "Yes") "x" = (ResponseCategory.noResponse24h, false) :=
  ⟨by decide, c8_short_input_no_response true true (some "Yes") "x" (by decide)⟩

/-- C10: because the time-pattern list contains the bare substrings `am` and
`pm`, any text containing either of them anywhere (and no DNC pattern) is
classified `CallAtDifferentTime`. -/
theorem c10_bare_am_pm (t : String)
    (ham : strContains (strTrim (strToLower t)) "am" = true ∨
           strContains (strTrim (strToLower t)) "pm" = true)
    (hdnc : dncMatch (strTrim (strToLower t)) = false) :
    categorizeUserResponsePatternMatching t = ResponseCategory.callAtDifferentTime := by
  have htime : timeMatch (strTrim (strToLower t)) = true := by
    unfold timeMatch
    rcases ham with h | h
    · have hany : timeSubstringPatterns.any
          (fun p => strContains (strTrim (strToLower t)) p) = true :=
        List.any_eq_true.mpr ⟨"am", by decide, h⟩
      simp [hany]
    · have hany : timeSubstringPatterns.any
          (fun p => strContains (strTrim (strToLower t)) p) = true :=
        List.any_eq_true.mpr ⟨"pm", by decide, h⟩
      simp [hany]
  unfold categorizeUserResponsePatternMatching
  simp [hdnc, htime]

/-- Witness for C10 at `"What is your name"`, where `am` occurs only inside
the word `name`. -/
theorem c10_witness :
    strContains (strTrim (strToLower "What is your name")) "am" = true ∧
    dncMatch (strTrim (strToLower "What is your name")) = false ∧
    categorizeUserResponsePatternMatching "What is your name" =
      ResponseCategory.callAtDifferentTime :=
  ⟨by decide, by decide,
   c10_bare_am_pm "What is your name" (Or.inl (by decide)) (by decide)⟩

/-- C6: submitting text whose trimmed form case-insensitively equals STOP
appends exactly that text as a user message and sets the opt-out flag, with
no classification, no bot reply, no state transition and no scheduled
effect — `handleTextInput` returns before reaching the categorizer, so the
result does not depend on the oracle arguments. -/
theorem c6_stop_opt_out (s : Session) (raw : String) (hasApiKey : Bool)
    (api : Option String) (h : strToUpper (strTrim raw) = "STOP") :
    handleTextInput s raw hasApiKey api =
      { s with userHasStopped := true,
               messages := s.messages ++ [mkMessage Sender.user (strTrim raw) none] } := by
  have hne : strTrim raw ≠ "" := by
    intro he
    rw [he] at h
    exact absurd h (by decide)
  unfold handleTextInput
  dsimp only
  rw [if_neg hne, if_pos h, addMessage_user_eq]

/-- Witness for C6: `" stop "` trims to `"stop"` and opts out. -/
theorem c6_witness :
    strToUpper (strTrim " stop ") = "STOP" ∧
    handleTextInput demoSession " stop " false none =
      { demoSession with userHasStopped := true,
                         messages := demoSession.messages ++
                           [mkMessage Sender.user (strTrim " stop ") none] } :=
  ⟨by decide, c6_stop_opt_out demoSession " stop " false none (by decide)⟩

/-- C5 counterexample: run a fresh webform-A session to `waiting_for_response`,
take the no-response branch so that the 24-hour-pass callback is pending, and
reset.  The reset leaves the stale callback in the queue (the source never
calls `clearTimeout`); when it fires it appends two bot messages to the new
session's log and moves the new session to `followup_next_day` with the
follow-up flag set — the claim says a stale effect must append no message and
perform no state mutation. -/
theorem c5_counterexample :
    (stepTrace (startConversation demoSession)
      [Event.fire 0, Event.callDecline, Event.fire 0,
       Event.selectOption "24 hours later (No response)", Event.reset]).pending =
        [PendingAction.timePassingComplete, PendingAction.showCalling] ∧
    (stepTrace (startConversation demoSession)
      [Event.fire 0, Event.callDecline, Event.fire 0,
       Event.selectOption "24 hours later (No response)", Event.reset]).currentState =
        ConversationState.initial ∧
    (stepTrace (startConversation demoSession)
      [Event.fire 0, Event.callDecline, Event.fire 0,
       Event.selectOption "24 hours later (No response)", Event.reset]).messages.length = 2 ∧
    (stepTrace (startConversation demoSession)
      [Event.fire 0, Event.callDecline, Event.fire 0,
       Event.selectOption "24 hours later (No response)", Event.reset,
       Event.fire 0]).messages.length = 4 ∧
    (stepTrace (startConversation demoSession)
      [Event.fire 0, Event.callDecline, Event.fire 0,
       Event.selectOption "24 hours later (No response)", Event.reset,
       Event.fire 0]).currentState = ConversationState.followup_next_day ∧
    (stepTrace (startConversation demoSession)
      [Event.fire 0, Event.callDecline, Event.fire 0,
       Event.selectOption "24 hours later (No response)", Event.reset,
       Event.fire 0]).isAfter24HourFollowup = true := by
  decide

/-- C5 amended: an explicit reset does not cancel any pending delayed
callback — every action pending before the reset is still pending after it
(the restart may append new ones behind them), so stale timers later fire
into the new session. -/
theorem c5_amended_reset_keeps_pending (s : Session) :
    ∃ rest, (resetConversation s).pending = s.pending ++ rest := by
  unfold resetConversation startConversation
  dsimp only
  split_ifs with h1 h2
  · exact ⟨[PendingAction.showCalling], by simp⟩
  · exact ⟨[PendingAction.confirmVisitIntro], by simp⟩
  · exact ⟨[PendingAction.showCalling], by simp⟩
  · exact ⟨[PendingAction.showCalling], by simp⟩

/-- C2 counterexample: in the fresh webform session the state `initial` has
no transition for any option, yet dispatching `"Yes"` appends it to the log
as a user message (the claim says no message is appended). -/
theorem c2_counterexample :
    hasTransition demoSession.selectedWorkflow demoSession.currentState "Yes" = false ∧
    (handleOptionSelect demoSession "Yes").currentState = demoSession.currentState ∧
    demoSession.messages.length = 0 ∧
    (handleOptionSelect demoSession "Yes").messages.length = 1 := by
  decide

/-- C2 amended: dispatching an option with no transition defined for the
current state still appends the option label as a user message, but changes
nothing else — no state change, no bot message, no scheduled effect.
(`hasTransition` records the case labels of the source's dispatch switches;
in `asking_better_time` and `asking_after_cancel` every label is acted on,
any non-Yes label being treated as the No branch.) -/
theorem c2_undefined_option_appends_user_only (s : Session) (option : String)
    (h : hasTransition s.selectedWorkflow s.currentState option = false) :
    handleOptionSelect s option =
      { s with messages := s.messages ++ [mkMessage Sender.user option none] } := by
  unfold handleOptionSelect
  rw [addMessage_user_eq]
  dsimp only
  unfold hasTransition at h
  by_cases hw : s.selectedWorkflow = "confirm visit"
  · rw [if_pos hw] at h
    rw [if_pos hw]
    unfold handleConfirmVisitResponse
    cases hst : s.currentState <;> simp_all
  · rw [if_neg hw] at h
    rw [if_neg hw]
    cases hst : s.currentState <;>
      simp_all [handleResponseToCallQuestion, handledCallQuestionOption]

/-- Witness for the amended C2: dispatching `"Yes"` in `initial` appends only
the user message. -/
theorem c2_witness :
    hasTransition demoSession.selectedWorkflow demoSession.currentState "Maybe" = false ∧
    handleOptionSelect demoSession "Maybe" =
      { demoSession with messages := demoSession.messages ++
          [mkMessage Sender.user "Maybe" none] } :=
  ⟨by decide, c2_undefined_option_appends_user_only demoSession "Maybe" (by decide)⟩

/-- C9 counterexample: drive a webform session into `followup_next_day` with
the flag set, then dispatch `"Do not contact"`.  The session leaves
`followup_next_day` for the terminal `ended` state but
`isAfter24HourFollowup` remains true — the claim that the flag is true only
while in (or just entering) `followup_next_day`, and is cleared exactly by
the Yes branch, is false. -/
theorem c9_counterexample :
    (stepTrace (startConversation demoSession)
      [Event.fire 0, Event.callDecline, Event.fire 0,
       Event.selectOption "24 hours later (No response)", Event.fire 0,
       Event.selectOption "Do not contact"]).currentState = ConversationState.ended ∧
    (stepTrace (startConversation demoSession)
      [Event.fire 0, Event.callDecline, Event.fire 0,
       Event.selectOption "24 hours later (No response)", Event.fire 0,
       Event.selectOption "Do not contact"]).isAfter24HourFollowup = true := by
  decide

/-- C9 amended: the 24-hour-pass completion sets the flag on entering
`followup_next_day`; the Yes branch consumes it (Yes with the flag set
clears it and opens the scheduler; Yes with the flag clear leaves it clear
and schedules the call, whose timer moves the state to `calling`); but
leaving `followup_next_day` through `"Do not contact"` keeps the flag set,
so the flag is not true only while in `followup_next_day`. -/
theorem c9_flag_lifecycle (s : Session)
    (hw : s.selectedWorkflow ≠ "confirm visit")
    (hs : s.currentState = ConversationState.followup_next_day) :
    ((runPendingAction s PendingAction.timePassingComplete).isAfter24HourFollowup = true ∧
     (runPendingAction s PendingAction.timePassingComplete).currentState =
       ConversationState.followup_next_day) ∧
    (s.isAfter24HourFollowup = true →
      (handleOptionSelect s "Yes").currentState = ConversationState.scheduling_time ∧
      (handleOptionSelect s "Yes").isAfter24HourFollowup = false) ∧
    (s.isAfter24HourFollowup = false →
      (handleOptionSelect s "Yes").currentState = s.currentState ∧
      (handleOptionSelect s "Yes").isAfter24HourFollowup = false ∧
      (handleOptionSelect s "Yes").pending = s.pending ++ [PendingAction.showCalling] ∧
      (runPendingAction (handleOptionSelect s "Yes") PendingAction.showCalling).currentState =
        ConversationState.calling) ∧
    (s.isAfter24HourFollowup = true →
      (handleOptionSelect s "Do not contact").currentState = ConversationState.ended ∧
      (handleOptionSelect s "Do not contact").isAfter24HourFollowup = true) := by
  refine ⟨⟨by simp [runPendingAction], by simp [runPendingAction]⟩, ?_, ?_, ?_⟩
  · intro hflag
    unfold handleOptionSelect
    rw [addMessage_user_eq]
    dsimp only
    rw [if_neg hw]
    simp only [hs]
    unfold handleResponseToCallQuestion
    simp [hflag]
  · intro hflag
    unfold handleOptionSelect
    rw [addMessage_user_eq]
    dsimp only
    rw [if_neg hw]
    simp only [hs]
    unfold handleResponseToCallQuestion
    simp [hflag, hs, runPendingAction]
  · intro hflag
    unfold handleOptionSelect
    rw [addMessage_user_eq]
    dsimp only
    rw [if_neg hw]
    simp only [hs]
    unfold handleResponseToCallQuestion
    simp [hflag]

/-- Witness for C9 at a concrete follow-up session with the flag set. -/
theorem c9_witness :
    followupSession.isAfter24HourFollowup = true ∧
    (handleOptionSelect followupSession "Yes").currentState =
      ConversationState.scheduling_time ∧
    (handleOptionSelect followupSession "Yes").isAfter24HourFollowup = false :=
  ⟨rfl,
   ((c9_flag_lifecycle followupSession (by decide) rfl).2.1 rfl).1,
   ((c9_flag_lifecycle followupSession (by decide) rfl).2.1 rfl).2⟩

/-- An active (non-opted-out) bot message on a nonempty log is a plain
append. -/
theorem addMessage_bot_active (s : Session) (t : String) (o : Option (List String))
    (h1 : s.userHasStopped = false) (h2 : s.messages ≠ []) :
    addMessage s Sender.bot t o =
      { s with messages := s.messages ++ [mkMessage Sender.bot t o] } := by
  unfold addMessage
  simp [h1, h2]

/-- C3: once the opt-out flag is set, appending a bot message is a no-op; no
event other than a reset ever appends a bot message or clears the flag again,
and a reset is exactly what clears it. -/
theorem c3_optout_irreversible (s : Session) (e : Event) (text : String)
    (opts : Option (List String)) (hstop : s.userHasStopped = true) :
    addMessage s Sender.bot text opts = s ∧
    (e ≠ Event.reset →
      botFilter (step s e).messages = botFilter s.messages ∧
      (step s e).userHasStopped = true) ∧
    (step s Event.reset).userHasStopped = false := by
  refine ⟨addMessage_bot_stopped s text opts hstop, ?_, ?_⟩
  · intro hne
    cases e with
    | selectOption label => exact stop_handleOptionSelect s label hstop
    | submitText t k api => exact stop_handleTextInput s t k api hstop
    | callAccept => exact ⟨rfl, hstop⟩
    | callDecline => exact ⟨rfl, hstop⟩
    | confirmDateTime d h12 m ap => exact stop_handleDateTimeConfirm s d h12 m ap hstop
    | cancelDateTime => exact stop_handleDateTimeCancel s hstop
    | reset => exact absurd rfl hne
    | fire i => exact stop_firePending s i hstop
  · exact startConversation_userHasStopped _

/-- Witness for C3 on a concrete opted-out session. -/
theorem c3_witness :
    addMessage stoppedSession Sender.bot "hello" none = stoppedSession ∧
    botFilter (step stoppedSession (Event.selectOption "Yes")).messages =
      botFilter stoppedSession.messages ∧
    (step stoppedSession (Event.selectOption "Yes")).userHasStopped = true ∧
    (step stoppedSession Event.reset).userHasStopped = false :=
  ⟨(c3_optout_irreversible stoppedSession (Event.selectOption "Yes") "hello" none rfl).1,
   ((c3_optout_irreversible stoppedSession (Event.selectOption "Yes") "hello" none rfl).2.1
      (by decide)).1,
   ((c3_optout_irreversible stoppedSession (Event.selectOption "Yes") "hello" none rfl).2.1
      (by decide)).2,
   (c3_optout_irreversible stoppedSession (Event.selectOption "Yes") "hello" none rfl).2.2⟩

/-- C4: in the webform workflow, a free-text submission (of a session that
has not opted out) matching a confirm-visit intent pattern appends the user's
text, switches the workflow to confirm-visit, sets `confirm_visit_initial`
and schedules the delayed initial prompt; when that pending callback fires,
the state becomes `confirm_visit_waiting` and the confirm-visit initial
prompt is emitted with its option set — with every previously logged message
preserved unmodified as a prefix. -/
theorem c4_webform_intent_switch (s : Session) (raw : String) (hasApiKey : Bool)
    (api : Option String)
    (hw : s.selectedWorkflow = "webform")
    (hstop : s.userHasStopped = false)
    (hintent : isConfirmVisitIntent (strTrim raw) = true) :
    (handleTextInput s raw hasApiKey api).selectedWorkflow = "confirm visit" ∧
    (handleTextInput s raw hasApiKey api).currentState =
      ConversationState.confirm_visit_initial ∧
    (handleTextInput s raw hasApiKey api).messages =
      s.messages ++ [mkMessage Sender.user (strTrim raw) none] ∧
    (handleTextInput s raw hasApiKey api).pending =
      s.pending ++ [PendingAction.confirmVisitIntro] ∧
    (firePending (handleTextInput s raw hasApiKey api) s.pending.length).currentState =
      ConversationState.confirm_visit_waiting ∧
    (firePending (handleTextInput s raw hasApiKey api) s.pending.length).messages =
      s.messages ++ [mkMessage Sender.user (strTrim raw) none,
        mkMessage Sender.bot (confirmVisitInitialMessage s.apptDateTime)
          (some confirmVisitOptions)] ∧
    (firePending (handleTextInput s raw hasApiKey api) s.pending.length).pending =
      s.pending := by
  have hne : strTrim raw ≠ "" := by
    intro he
    rw [he] at hintent
    exact absurd hintent (by decide)
  have hSTOP : strToUpper (strTrim raw) ≠ "STOP" := isConfirmVisitIntent_ne_STOP hintent
  have hred : handleTextInput s raw hasApiKey api =
      schedule
        { s with messages := s.messages ++ [mkMessage Sender.user (strTrim raw) none],
                 selectedWorkflow := "confirm visit",
                 selectedVersion := "A",
                 currentState := ConversationState.confirm_visit_initial }
        PendingAction.confirmVisitIntro := by
    unfold handleTextInput
    dsimp only
    rw [if_neg hne, if_neg hSTOP, if_pos (⟨hw, hintent⟩ : _ ∧ _), addMessage_user_eq]
    rfl
  have hfire : firePending (handleTextInput s raw hasApiKey api) s.pending.length =
      runPendingAction
        { s with messages := s.messages ++ [mkMessage Sender.user (strTrim raw) none],
                 selectedWorkflow := "confirm visit",
                 selectedVersion := "A",
                 currentState := ConversationState.confirm_visit_initial }
        PendingAction.confirmVisitIntro := by
    rw [hred]
    unfold firePending
    rw [schedule_pending]
    have hget : (s.pending ++ [PendingAction.confirmVisitIntro])[s.pending.length]? =
        some PendingAction.confirmVisitIntro := List.getElem?_concat_length _ _
    rw [hget]
    dsimp only
    rw [eraseIdx_concat_self]
    rfl
  have hrun : runPendingAction
      { s with messages := s.messages ++ [mkMessage Sender.user (strTrim raw) none],
               selectedWorkflow := "confirm visit",
               selectedVersion := "A",
               currentState := ConversationState.confirm_visit_initial }
      PendingAction.confirmVisitIntro =
      { s with messages := s.messages ++ [mkMessage Sender.user (strTrim raw) none,
                 mkMessage Sender.bot (confirmVisitInitialMessage s.apptDateTime)
                   (some confirmVisitOptions)],
               selectedWorkflow := "confirm visit",
               selectedVersion := "A",
               currentState := ConversationState.confirm_visit_waiting } := by
    unfold runPendingAction
    dsimp only
    rw [addMessage_bot_active _ _ _ (by simpa using hstop) (by simp)]
    simp
  refine ⟨?_, ?_, ?_, ?_, ?_, ?_, ?_⟩
  · rw [hred]
    rfl
  · rw [hred]
    rfl
  · rw [hred]
    rfl
  · rw [hred]
    rfl
  · rw [hfire, hrun]
  · rw [hfire, hrun]
  · rw [hfire, hrun]

/-- Witness for C4: submitting a confirm-visit intent text in the fresh
webform session. -/
theorem c4_witness :
    isConfirmVisitIntent (strTrim "I want to confirm my appointment") = true ∧
    (handleTextInput demoSession "I want to confirm my appointment" false none).selectedWorkflow =
      "confirm visit" ∧
    (handleTextInput demoSession "I want to confirm my appointment" false none).currentState =
      ConversationState.confirm_visit_initial ∧
    (firePending (handleTextInput demoSession "I want to confirm my appointment" false none)
      demoSession.pending.length).currentState = ConversationState.confirm_visit_waiting :=
  ⟨by decide,
   (c4_webform_intent_switch demoSession "I want to confirm my appointment" false none
      rfl rfl (by decide)).1,
   (c4_webform_intent_switch demoSession "I want to confirm my appointment" false none
      rfl rfl (by decide)).2.1,
   (c4_webform_intent_switch demoSession "I want to confirm my appointment" false none
      rfl rfl (by decide)).2.2.2.2.1⟩
